import Mathlib

/-!
Shallow embedding of the DYP-R01CW / DFRobot SEN0590 laser ranging sensor
driver (sources: src/DYP_R01CW.h, src/DYP_R01CW.cpp).

The Arduino Wire (I2C) bus is an external collaborator.  Each driver
operation takes the responses the bus would deliver during that call
(transaction-end status codes, the byte count returned by requestFrom,
the bytes delivered by read) as explicit arguments, and returns — besides
its C++ return value and the possibly updated driver object — the list of
bus events it issued, so that properties such as "issues zero bus
transactions" are statable.  The `wire` field of a driver is `true` when a
bus handle is bound, modelling `_wire != nullptr`.  8-bit machine values
are Nats reduced modulo 256 at the points where the C++ types force it;
the int16_t result of readDistance is an Int obtained by reducing the
exact integer sum modulo 2^16 into [-32768, 32767].
-/

namespace DYP

/-- Reinterpretation of an integer as a C++ int16_t: reduce modulo 2^16
into the range [-32768, 32767]. -/
def intToInt16 (x : Int) : Int :=
  let m := x % 65536
  if m < 32768 then m else m - 65536

/-- Header constant: default constructor argument (the header comments
describe 0x70 as the sensor's factory address in 7-bit format). -/
def DYP_R01CW_DEFAULT_ADDR : Nat := 0x70

/-- Header constant: firmware version register. -/
def DYP_R01CW_VERSION_REG : Nat := 0x00

/-- Header constant: command register. -/
def DYP_R01CW_COMMAND_REG : Nat := 0x10

/-- Header constant: distance data register. -/
def DYP_R01CW_DATA_REG : Nat := 0x02

/-- Header constant: slave address register. -/
def DYP_R01CW_SLAVE_ADDR_REG : Nat := 0x05

/-- Header constant: measurement trigger command byte. -/
def DYP_R01CW_MEASURE_COMMAND : Nat := 0xB0

/-- One event on the I2C bus as issued through the TwoWire interface.
`endTransmission` carries the status the bus returned, `requestFrom`
carries the requested quantity and the count the bus returned, `read`
carries the byte delivered. -/
inductive BusEvent where
  | beginTransmission (addr : Nat)
  | write (b : Nat)
  | endTransmission (status : Nat)
  | requestFrom (addr : Nat) (quantity : Nat) (returned : Nat)
  | read (b : Nat)
deriving DecidableEq, Repr

/-- The driver object: `addr` is the private `_addr` field (7-bit bus
address), `wire` is `true` when `_wire` is a non-null bus handle, and
`distanceOffset` is the signed 16-bit `_distanceOffset` field. -/
structure Driver where
  addr : Nat
  wire : Bool
  distanceOffset : Int
deriving DecidableEq, Repr

/-- Constructor `DYP_R01CW::DYP_R01CW(uint8_t addr)`: converts the 8-bit
protocol address to 7-bit by a right shift, leaves the bus unbound, and
zeroes the distance offset. -/
def DYP_R01CW (addr : Nat) : Driver :=
  { addr := (addr % 256) >>> 1, wire := false, distanceOffset := 0 }

/-- Bus responses consumed by one `readDistance` call: the statuses of the
two transaction ends, the byte count answered by requestFrom, and the two
bytes delivered by read. -/
structure DistEnv where
  status1 : Nat
  status2 : Nat
  count : Nat
  hi : Nat
  lo : Nat
deriving DecidableEq, Repr

/-- Bus responses consumed by one `readSoftwareVersion` call. -/
structure VerEnv where
  status : Nat
  count : Nat
  hi : Nat
  lo : Nat
deriving DecidableEq, Repr

/-- `DYP_R01CW::readDistance`: command write, 50 ms delay (pure wait, no
bus event), data-register pointer write, 2-byte big-endian read, 0xFFFF
sentinel check, then offset addition with int16_t truncation. -/
def readDistance (d : Driver) (env : DistEnv) : Int × List BusEvent :=
  if d.wire = false then (-1, [])
  else
    let s1 := env.status1 % 256
    let t1 := [BusEvent.beginTransmission d.addr, BusEvent.write DYP_R01CW_COMMAND_REG,
               BusEvent.write DYP_R01CW_MEASURE_COMMAND, BusEvent.endTransmission s1]
    if s1 ≠ 0 then (-1, t1)
    else
      let s2 := env.status2 % 256
      let t2 := t1 ++ [BusEvent.beginTransmission d.addr, BusEvent.write DYP_R01CW_DATA_REG,
                       BusEvent.endTransmission s2]
      if s2 ≠ 0 then (-1, t2)
      else
        let c := env.count % 256
        let t3 := t2 ++ [BusEvent.requestFrom d.addr 2 c]
        if c ≠ 2 then (-1, t3)
        else
          let hi := env.hi % 256
          let lo := env.lo % 256
          let t4 := t3 ++ [BusEvent.read hi, BusEvent.read lo]
          let raw := hi * 256 + lo
          if raw = 0xFFFF then (-1, t4)
          else (intToInt16 ((raw : Int) + d.distanceOffset), t4)

/-- `DYP_R01CW::isConnected`: open and immediately end a transaction;
connected iff the status is zero. -/
def isConnected (d : Driver) (status : Nat) : Bool × List BusEvent :=
  if d.wire = false then (false, [])
  else
    let s := status % 256
    (s == 0, [BusEvent.beginTransmission d.addr, BusEvent.endTransmission s])

/-- `DYP_R01CW::readSoftwareVersion`: version-register pointer write then
2-byte big-endian read; 0 on any transport failure. -/
def readSoftwareVersion (d : Driver) (env : VerEnv) : Nat × List BusEvent :=
  if d.wire = false then (0, [])
  else
    let s := env.status % 256
    let t1 := [BusEvent.beginTransmission d.addr, BusEvent.write DYP_R01CW_VERSION_REG,
               BusEvent.endTransmission s]
    if s ≠ 0 then (0, t1)
    else
      let c := env.count % 256
      let t2 := t1 ++ [BusEvent.requestFrom d.addr 2 c]
      if c ≠ 2 then (0, t2)
      else
        let hi := env.hi % 256
        let lo := env.lo % 256
        (hi * 256 + lo, t2 ++ [BusEvent.read hi, BusEvent.read lo])

/-- `DYP_R01CW::begin`: stores the supplied bus handle unconditionally
(`_wire = wire`) before the probe — including a null one, so `w` models
whether the supplied TwoWire pointer is non-null — then probes liveness by
reading the software version; returns false exactly when the probed
version is 0 (always the case when the stored handle is null).  The
conditional `_wire->begin()` call on the global Wire singleton is
bus-initialization plumbing with no modelled effect. -/
def begin (d : Driver) (w : Bool) (env : VerEnv) : Bool × Driver × List BusEvent :=
  let d1 := { d with wire := w }
  let v := readSoftwareVersion d1 env
  (v.1 != 0, d1, v.2)

/-- `DYP_R01CW::setAddress`: validates the candidate 8-bit address (even,
in [0xD0, 0xFE], not in the reserved [0xF0, 0xF6]), then writes it to the
slave-address register and on transport success updates the internal 7-bit
address. -/
def setAddress (d : Driver) (newAddr : Nat) (status : Nat) : Bool × Driver × List BusEvent :=
  let a := newAddr % 256
  if d.wire = false then (false, d, [])
  else if a < 0xD0 ∨ 0xFE < a ∨ a &&& 1 ≠ 0 then (false, d, [])
  else if 0xF0 ≤ a ∧ a ≤ 0xF6 then (false, d, [])
  else
    let s := status % 256
    let t := [BusEvent.beginTransmission d.addr, BusEvent.write DYP_R01CW_SLAVE_ADDR_REG,
              BusEvent.write a, BusEvent.endTransmission s]
    if s ≠ 0 then (false, d, t)
    else (true, { d with addr := a >>> 1 }, t)

/-- `DYP_R01CW::setDistanceOffset`: pure in-memory mutator of the int16_t
offset; no bus I/O. -/
def setDistanceOffset (d : Driver) (offset : Int) : Driver :=
  { d with distanceOffset := intToInt16 offset }

/-- `DYP_R01CW::getDistanceOffset`: pure accessor. -/
def getDistanceOffset (d : Driver) : Int := d.distanceOffset

/-- Modelled from the spec: `DYP_R01CW::restart` writes the command
register pointer followed by a fixed two-byte restart sequence.  The
macros DYP_R01CW_RESTART_COMMAND_1 / DYP_R01CW_RESTART_COMMAND_2 used by
DYP_R01CW.cpp are not defined anywhere in the sources at hand and the spec
gives no values (only that RESTART is a fixed two-byte sequence), so the
two command bytes are parameters here; everything else follows the code. -/
def restart (d : Driver) (cmd1 cmd2 : Nat) (status : Nat) : Bool × List BusEvent :=
  if d.wire = false then (false, [])
  else
    let s := status % 256
    (s == 0,
     [BusEvent.beginTransmission d.addr, BusEvent.write DYP_R01CW_COMMAND_REG,
      BusEvent.write (cmd1 % 256), BusEvent.write (cmd2 % 256), BusEvent.endTransmission s])

/-- One public operation together with the bus responses it consumes, for
stating properties over arbitrary call sequences. -/
inductive Op where
  | opBegin (w : Bool) (env : VerEnv)
  | opReadDistance (env : DistEnv)
  | opIsConnected (status : Nat)
  | opReadSoftwareVersion (env : VerEnv)
  | opSetAddress (newAddr status : Nat)
  | opSetDistanceOffset (x : Int)
  | opGetDistanceOffset
  | opRestart (cmd1 cmd2 status : Nat)
deriving DecidableEq, Repr

/-- State transition of one operation: only `begin`, `setAddress` and
`setDistanceOffset` can change the driver's fields; the other operations
return the object unchanged. -/
def step (d : Driver) : Op → Driver
  | Op.opBegin w env => (begin d w env).2.1
  | Op.opSetAddress a s => (setAddress d a s).2.1
  | Op.opSetDistanceOffset x => setDistanceOffset d x
  | Op.opReadDistance _ => d
  | Op.opIsConnected _ => d
  | Op.opReadSoftwareVersion _ => d
  | Op.opGetDistanceOffset => d
  | Op.opRestart _ _ _ => d

/-- Whether an operation is the initialize call. -/
def isBegin : Op → Bool
  | Op.opBegin _ _ => true
  | _ => false

/-- Whether a bus event is a byte delivery (`read`). -/
def isRead : BusEvent → Bool
  | BusEvent.read _ => true
  | _ => false

/-- The legal 8-bit reconfiguration addresses accepted by `setAddress`:
even, within [0xD0, 0xFE], outside the reserved [0xF0, 0xF6]. -/
def legalAddr (a : Nat) : Prop :=
  a % 2 = 0 ∧ 0xD0 ≤ a ∧ a ≤ 0xFE ∧ ¬(0xF0 ≤ a ∧ a ≤ 0xF6)

instance : DecidablePred legalAddr := fun a => by
  unfold legalAddr; infer_instance

/-- A concrete bound driver at the factory 7-bit address with offset 0,
used to instantiate universally quantified theorems. -/
def testDriver : Driver := { addr := 0x70, wire := true, distanceOffset := 0 }

lemma and_one_mod (a : Nat) : a &&& 1 = a % 2 := Nat.and_one_is_mod a

lemma mod256_shift_lt (a : Nat) : (a % 256) >>> 1 < 128 := by
  have h : (a % 256) >>> 1 = (a % 256) / 2 ^ 1 := Nat.shiftRight_eq_div_pow _ _
  have h2 : (2 : Nat) ^ 1 = 2 := by norm_num
  rw [h, h2]
  omega

lemma setAddress_wire_eq (d : Driver) (a s : Nat) :
    ((setAddress d a s).2.1).wire = d.wire := by
  dsimp only [setAddress]
  split_ifs <;> rfl

lemma setAddress_addr_lt (d : Driver) (a s : Nat) (h : d.addr < 128) :
    ((setAddress d a s).2.1).addr < 128 := by
  dsimp only [setAddress]
  split_ifs <;> first | exact h | exact mod256_shift_lt a

lemma foldl_no_begin_wire (d : Driver) (ops : List Op)
    (h : ∀ o ∈ ops, isBegin o = false) :
    (List.foldl step d ops).wire = d.wire := by
  induction ops generalizing d with
  | nil => rfl
  | cons o rest ih =>
      rw [List.foldl_cons, ih (step d o) (fun o2 h2 => h o2 (List.mem_cons_of_mem o h2))]
      have ho := h o (List.mem_cons_self o rest)
      cases o with
      | opBegin w env => simp [isBegin] at ho
      | opSetAddress a s => exact setAddress_wire_eq d a s
      | opSetDistanceOffset x => rfl
      | opReadDistance e => rfl
      | opIsConnected s2 => rfl
      | opReadSoftwareVersion e => rfl
      | opGetDistanceOffset => rfl
      | opRestart c1 c2 s2 => rfl

lemma setAddress_accepted (d : Driver) (a s : Nat) (hb : d.wire = true)
    (ha : a < 256) (hc1 : ¬(a < 0xD0 ∨ 0xFE < a ∨ a &&& 1 ≠ 0))
    (hc2 : ¬(0xF0 ≤ a ∧ a ≤ 0xF6)) :
    setAddress d a s =
      if s % 256 ≠ 0
      then (false, d, [BusEvent.beginTransmission d.addr, BusEvent.write DYP_R01CW_SLAVE_ADDR_REG,
                       BusEvent.write a, BusEvent.endTransmission (s % 256)])
      else (true, { d with addr := a >>> 1 },
            [BusEvent.beginTransmission d.addr, BusEvent.write DYP_R01CW_SLAVE_ADDR_REG,
             BusEvent.write a, BusEvent.endTransmission (s % 256)]) := by
  dsimp only [setAddress]
  rw [Nat.mod_eq_of_lt ha, if_neg (by simp [hb]), if_neg hc1, if_neg hc2]

/-- C1: for a bound driver, when both transaction ends return status 0 and
the block read returns exactly 2 bytes, readDistance returns -1 exactly
when the two bytes decode big-endian to 0xFFFF, and otherwise returns the
big-endian raw value plus the distance offset, reinterpreted as a signed
16-bit integer. -/
theorem readDistance_success_value (d : Driver) (env : DistEnv) (hb : d.wire = true)
    (h1 : env.status1 % 256 = 0) (h2 : env.status2 % 256 = 0) (hc : env.count % 256 = 2) :
    (readDistance d env).1 =
      if env.hi % 256 * 256 + env.lo % 256 = 0xFFFF then (-1 : Int)
      else intToInt16 (((env.hi % 256 * 256 + env.lo % 256 : Nat) : Int) + d.distanceOffset) := by
  simp [readDistance, hb, h1, h2, hc]
  split_ifs <;> rfl

/-- Witness for C1 at a concrete bound driver and bus responses delivering
bytes [0x00, 0x64]. -/
theorem readDistance_success_value_inst :
    testDriver.wire = true ∧
    (readDistance testDriver { status1 := 0, status2 := 0, count := 2, hi := 0, lo := 100 }).1 =
      if (0 : Nat) % 256 * 256 + 100 % 256 = 0xFFFF then (-1 : Int)
      else intToInt16 ((((0 : Nat) % 256 * 256 + 100 % 256 : Nat) : Int) + testDriver.distanceOffset) :=
  ⟨rfl, readDistance_success_value testDriver _ rfl rfl rfl rfl⟩

/-- C2: for a bound driver, readDistance returns -1 whenever the first
transaction end reports nonzero status, or the second does, or the block
read returns a count other than 2, regardless of the byte values the bus
would deliver; moreover the emitted bus trace contains no byte delivery,
so the sequence was aborted before reading data and never retried. -/
theorem readDistance_transport_failure (d : Driver) (env : DistEnv) (hb : d.wire = true)
    (h : env.status1 % 256 ≠ 0 ∨ env.status2 % 256 ≠ 0 ∨ env.count % 256 ≠ 2) :
    (readDistance d env).1 = -1 ∧ (readDistance d env).2.countP isRead = 0 := by
  by_cases h1 : env.status1 % 256 = 0
  · by_cases h2 : env.status2 % 256 = 0
    · have h3 : env.count % 256 ≠ 2 := by tauto
      simp [readDistance, hb, h1, h2, h3, isRead, List.countP_cons, List.countP_nil]
    · simp [readDistance, hb, h1, h2, isRead, List.countP_cons, List.countP_nil]
  · simp [readDistance, hb, h1, isRead, List.countP_cons, List.countP_nil]

/-- Witness for C2 at a concrete bound driver with the first transaction
end failing (status 1). -/
theorem readDistance_transport_failure_inst :
    testDriver.wire = true ∧
    (readDistance testDriver { status1 := 1, status2 := 0, count := 2, hi := 0, lo := 0 }).1 = -1 ∧
    (readDistance testDriver { status1 := 1, status2 := 0, count := 2, hi := 0, lo := 0 }).2.countP isRead = 0 :=
  ⟨rfl, readDistance_transport_failure testDriver _ rfl (by decide)⟩

/-- C10: a fully successful readDistance (all transport steps succeed and
the raw value is not the 0xFFFF sentinel) can still return -1 once the
offset is added modulo 2^16 and reinterpreted as signed 16-bit: raw 0xFFFE
with offset 1 does, so that reading is indistinguishable from the failure
sentinel. -/
theorem readDistance_offset_aliases_failure :
    (setDistanceOffset testDriver 1).wire = true ∧
    (0xFF * 256 + 0xFE : Nat) ≠ 0xFFFF ∧
    (readDistance (setDistanceOffset testDriver 1)
        { status1 := 0, status2 := 0, count := 2, hi := 0xFF, lo := 0xFE }).1 = -1 := by
  decide

set_option maxRecDepth 4000 in
/-- C3: for a bound driver and any 8-bit value outside the legal address
set, setAddress returns false, emits no bus event, and returns the driver
object unchanged; and the legal set contains exactly 20 values. -/
theorem setAddress_rejects_illegal (d : Driver) (a s : Nat) (hb : d.wire = true)
    (ha : a < 256) (hni : ¬ legalAddr a) :
    setAddress d a s = (false, d, []) ∧
    ((List.range 256).countP fun x => decide (legalAddr x)) = 20 := by
  refine ⟨?_, by decide⟩
  have hand : a &&& 1 = a % 2 := and_one_mod a
  unfold legalAddr at hni
  dsimp only [setAddress]
  rw [Nat.mod_eq_of_lt ha, if_neg (by simp [hb])]
  by_cases hc1 : a < 0xD0 ∨ 0xFE < a ∨ a &&& 1 ≠ 0
  · rw [if_pos hc1]
  · have hc2 : 0xF0 ≤ a ∧ a ≤ 0xF6 := by
      rw [hand] at hc1
      omega
    rw [if_neg hc1, if_pos hc2]

/-- Witness for C3 at the reserved address 0xF2. -/
theorem setAddress_rejects_illegal_inst :
    testDriver.wire = true ∧ (0xF2 : Nat) < 256 ∧ ¬ legalAddr 0xF2 ∧
    (setAddress testDriver 0xF2 0 = (false, testDriver, []) ∧
     ((List.range 256).countP fun x => decide (legalAddr x)) = 20) :=
  ⟨rfl, by decide, by decide, setAddress_rejects_illegal testDriver 0xF2 0 rfl (by decide) (by decide)⟩

/-- C4: for a bound driver and any address in the legal set: if the
transaction ends with status 0, setAddress returns true and the internal
7-bit address becomes the new 8-bit address shifted right by one; on a
nonzero status it returns false and the driver object is unchanged. -/
theorem setAddress_legal_behaviour (d : Driver) (a s : Nat) (hb : d.wire = true)
    (hl : legalAddr a) :
    (s % 256 = 0 →
      (setAddress d a s).1 = true ∧ (setAddress d a s).2.1.addr = a >>> 1) ∧
    (s % 256 ≠ 0 →
      (setAddress d a s).1 = false ∧ (setAddress d a s).2.1 = d) := by
  obtain ⟨he, hlo, hhi, hres⟩ := hl
  have ha : a < 256 := by omega
  have hand : a &&& 1 = a % 2 := and_one_mod a
  have hc1 : ¬(a < 0xD0 ∨ 0xFE < a ∨ a &&& 1 ≠ 0) := by
    rw [hand]
    omega
  have heq := setAddress_accepted d a s hb ha hc1 hres
  constructor
  · intro hs
    rw [heq, if_neg (by simp [hs])]
    exact ⟨rfl, rfl⟩
  · intro hs
    rw [heq, if_pos hs]
    exact ⟨rfl, rfl⟩

/-- Witness for C4 at the legal address 0xD0 with a successful
transaction. -/
theorem setAddress_legal_behaviour_inst :
    testDriver.wire = true ∧ legalAddr 0xD0 ∧
    (setAddress testDriver 0xD0 0).1 = true ∧
    (setAddress testDriver 0xD0 0).2.1.addr = 0xD0 >>> 1 :=
  ⟨rfl, by decide,
   (setAddress_legal_behaviour testDriver 0xD0 0 rfl (by decide)).1 rfl⟩

/-- Counterexample to C5 as stated: with a bound driver, a fully
successful transport (status 0, exactly 2 bytes) delivering the bytes
[0x00, 0x00] makes readSoftwareVersion return 0 even though no transport
step failed, so "returns 0 if and only if a transport step fails" is
false. -/
theorem readSoftwareVersion_zero_without_failure :
    testDriver.wire = true ∧ (0 : Nat) % 256 = 0 ∧ (2 : Nat) % 256 = 2 ∧
    (readSoftwareVersion testDriver { status := 0, count := 2, hi := 0, lo := 0 }).1 = 0 := by
  decide

/-- C5 amended: for a bound driver, readSoftwareVersion returns 0
whenever a transport step fails (nonzero transaction-end status or a byte
count other than 2), and when the transport succeeds it returns the
big-endian 16-bit combination of the two received bytes — which is itself
0 when both bytes are 0, so 0 is not exclusively a failure indication. -/
theorem readSoftwareVersion_behaviour (d : Driver) (env : VerEnv) (hb : d.wire = true) :
    (env.status % 256 ≠ 0 ∨ env.count % 256 ≠ 2 → (readSoftwareVersion d env).1 = 0) ∧
    (env.status % 256 = 0 → env.count % 256 = 2 →
      (readSoftwareVersion d env).1 = env.hi % 256 * 256 + env.lo % 256) := by
  constructor
  · intro h
    by_cases hs : env.status % 256 = 0
    · have hcnt : env.count % 256 ≠ 2 := by tauto
      simp [readSoftwareVersion, hb, hs, hcnt]
    · simp [readSoftwareVersion, hb, hs]
  · intro hs hcnt
    simp [readSoftwareVersion, hb, hs, hcnt]

/-- Witness for C5 (amended) at a concrete bound driver receiving the
bytes [0x01, 0x02]. -/
theorem readSoftwareVersion_behaviour_inst :
    testDriver.wire = true ∧
    (readSoftwareVersion testDriver { status := 0, count := 2, hi := 1, lo := 2 }).1 =
      1 % 256 * 256 + 2 % 256 :=
  ⟨rfl, (readSoftwareVersion_behaviour testDriver _ rfl).2 rfl rfl⟩

/-- C6: while the bus handle is absent, every operational call returns its
failure sentinel (-1 for readDistance, false for isConnected, setAddress
and restart, 0 for readSoftwareVersion) and emits no bus event, for
arbitrary would-be bus responses. -/
theorem uninitialized_returns_sentinels (d : Driver) (envD : DistEnv) (envV : VerEnv)
    (s a c1 c2 : Nat) (hu : d.wire = false) :
    readDistance d envD = (-1, []) ∧
    isConnected d s = (false, []) ∧
    readSoftwareVersion d envV = (0, []) ∧
    setAddress d a s = (false, d, []) ∧
    restart d c1 c2 s = (false, []) := by
  simp [readDistance, isConnected, readSoftwareVersion, setAddress, restart, hu]

/-- Witness for C6 at a freshly constructed (hence unbound) driver. -/
theorem uninitialized_returns_sentinels_inst :
    (DYP_R01CW 0xE0).wire = false ∧
    (readDistance (DYP_R01CW 0xE0) { status1 := 0, status2 := 0, count := 2, hi := 0, lo := 0 } = (-1, []) ∧
     isConnected (DYP_R01CW 0xE0) 0 = (false, []) ∧
     readSoftwareVersion (DYP_R01CW 0xE0) { status := 0, count := 2, hi := 0, lo := 0 } = (0, []) ∧
     setAddress (DYP_R01CW 0xE0) 0xD0 0 = (false, DYP_R01CW 0xE0, []) ∧
     restart (DYP_R01CW 0xE0) 0 0 0 = (false, [])) :=
  ⟨rfl, uninitialized_returns_sentinels (DYP_R01CW 0xE0) _ _ 0 0xD0 0 0 rfl⟩

/-- Counterexample to C7 as stated: the claim says no operation sequence
returns a BOUND driver to UNINITIALIZED, but `begin` stores the supplied
bus handle unconditionally, so calling it with a null handle on a bound
driver leaves the driver unbound. -/
theorem bound_driver_unbound_by_null_begin :
    testDriver.wire = true ∧
    (step testDriver (Op.opBegin false { status := 0, count := 2, hi := 1, lo := 2 })).wire = false := by
  decide

/-- C7 amended: the state space is the Boolean `wire` field, so there are
exactly the two states UNINITIALIZED and BOUND, and the initialize call is
the only operation that changes the state: after any operation the driver
is bound exactly when it was bound and the operation was not an initialize
with a null handle, or the operation was an initialize with a non-null
handle; and any sequence free of initialize calls preserves the state. -/
theorem wire_state_machine (d : Driver) (op : Op) (ops : List Op) :
    ((step d op).wire = true ↔
      ((d.wire = true ∧ ∀ env, op ≠ Op.opBegin false env) ∨
        ∃ env, op = Op.opBegin true env)) ∧
    ((∀ o ∈ ops, isBegin o = false) → (List.foldl step d ops).wire = d.wire) := by
  refine ⟨?_, fun h => foldl_no_begin_wire d ops h⟩
  cases op with
  | opBegin w env =>
      cases w
      · simp only [step]
        constructor
        · intro h
          simp [begin] at h
        · rintro (⟨hw, hne⟩ | ⟨env2, heq⟩)
          · exact absurd rfl (hne env)
          · simp at heq
      · simp only [step]
        constructor
        · intro h
          exact Or.inr ⟨env, rfl⟩
        · intro h
          rfl
  | opReadDistance e => simp [step]
  | opIsConnected s2 => simp [step]
  | opReadSoftwareVersion e => simp [step]
  | opSetAddress a s2 => simp [step, setAddress_wire_eq]
  | opSetDistanceOffset x => simp [step, setDistanceOffset]
  | opGetDistanceOffset => simp [step]
  | opRestart c1 c2 s2 => simp [step]

/-- Witness for C7 (amended): a begin-free sequence of operations on the
concrete bound driver leaves it bound. -/
theorem wire_state_machine_inst :
    (List.foldl step testDriver [Op.opIsConnected 0, Op.opSetAddress 0xD0 0]).wire =
      testDriver.wire :=
  (wire_state_machine testDriver
      (Op.opBegin false { status := 0, count := 2, hi := 1, lo := 2 })
      [Op.opIsConnected 0, Op.opSetAddress 0xD0 0]).2 (by decide)

/-- C8: constructing with the factory 8-bit address 0xE0 yields the
internal 7-bit address 0x70 as claimed, but the header's default argument
DYP_R01CW_DEFAULT_ADDR is 0x70 — already the 7-bit form — so default
construction shifts it again and stores 0x38, not the factory 7-bit
address 0x70.  This evaluates the code at the failing input. -/
theorem construct_addr_conversion :
    (DYP_R01CW 0xE0).addr = 0x70 ∧
    DYP_R01CW_DEFAULT_ADDR = 0x70 ∧
    (DYP_R01CW DYP_R01CW_DEFAULT_ADDR).addr = 0x38 := by
  decide

/-- C9: the internal address is a 7-bit value (below 128) after
construction from any argument, and every operation preserves that
bound. -/
theorem addr_always_7bit (a : Nat) (d : Driver) (op : Op) (h : d.addr < 128) :
    (DYP_R01CW a).addr < 128 ∧ (step d op).addr < 128 := by
  refine ⟨mod256_shift_lt a, ?_⟩
  cases op with
  | opSetAddress a2 s2 => exact setAddress_addr_lt d a2 s2 h
  | opBegin w env => exact h
  | opSetDistanceOffset x => exact h
  | opReadDistance env => exact h
  | opIsConnected s2 => exact h
  | opReadSoftwareVersion env => exact h
  | opGetDistanceOffset => exact h
  | opRestart c1 c2 s2 => exact h

/-- Witness for C9 at the factory-constructed driver and a successful
setAddress operation. -/
theorem addr_always_7bit_inst :
    (DYP_R01CW 0xE0).addr < 128 ∧ (step testDriver (Op.opSetAddress 0xD0 0)).addr < 128 :=
  addr_always_7bit 0xE0 testDriver (Op.opSetAddress 0xD0 0) (by decide)

end DYP
